import Mathlib

/-!
Shallow embedding of `src/imitation/scripts/common/train.py`
(policy-evaluation helper and configuration hook of the `imitation` library).

The file under verification contains:
  * `NORMALIZE_RUNNING_POLICY_KWARGS`, a constant dictionary of policy kwargs;
  * `config_hook`, which injects those kwargs when the configuration does not
    already pin a `features_extractor_class`;
  * `eval_policy`, which rolls out a policy (or a full RL algorithm) on a
    vectorized environment until at least `n_episodes_eval` episodes have
    completed and returns aggregate return statistics.

Collaborators (`imitation.data.rollout`, `imitation.scripts.common.common`)
are code of the same repository that is not part of the verified sources;
they are modelled from the specification, as marked in their doc comments.
The `stable_baselines3` base-algorithm contract (`set_env` / `get_env`) is an
external collaborator, likewise modelled from the specification's description.
Python's in-place mutation of `rl_algo` is embedded by explicit state
passing: `eval_policy` returns the post-state of its `rl_algo` argument
alongside the result; the environment argument carries no mutable state in
the embedding because the only environment-reference mutation in the source
is the `set_env` call on the algorithm branch.
-/

namespace ImitationTrain

/-- One step of an episode: observation, action, reward and termination flag.
Modelled from the spec: "Trajectory: an ordered sequence of
(observation, action, reward, done) steps produced by one episode rollout." -/
structure Step where
  obs : Nat
  act : Nat
  rew : Rat
  done : Bool
deriving DecidableEq, Repr

/-- A trajectory: the recorded steps of one completed episode. -/
structure Traj where
  steps : List Step
deriving DecidableEq, Repr

/-- The return of a trajectory: the sum of its step rewards. -/
def Traj.ret (t : Traj) : Rat :=
  (t.steps.map Step.rew).sum

/-- An action-selection policy (maps observations to actions).  Only its
behaviour during rollout matters for the claims, so it is a bare function. -/
structure Policy where
  act : Nat → Nat

/-- Behaviour of a vectorized environment: a number of parallel episode
instances (a stable-baselines3 `VecEnv` always runs at least one) and the
deterministic episode each instance produces for a given policy, seeded
random source and global episode index.
Modelled from the spec: "a vectorized environment (multiple parallel episode
instances)"; "Generation is deterministic given a seeded random source." -/
structure VecEnvCore where
  numEnvs : Nat
  numEnvs_pos : 0 < numEnvs
  rollEpisode : Policy → Nat → Nat → Traj

/-- A vectorized environment, possibly decorated by preprocessing wrappers
(e.g. observation reshaping) that stable-baselines3 applies in `set_env`.
Modelled from the spec: "the algorithm may require specific preprocessing
(e.g., observation reshaping) not visible to the caller". -/
inductive VecEnv where
  | base : VecEnvCore → VecEnv
  | wrapped : VecEnv → VecEnv

/-- The underlying behaviour of an environment: wrappers only preprocess
inputs and outputs, they do not change episode structure or rewards. -/
def VecEnv.core : VecEnv → VecEnvCore
  | .base c => c
  | .wrapped e => e.core

/-- Number of parallel episode instances of a vectorized environment. -/
def VecEnv.numEnvs (e : VecEnv) : Nat :=
  e.core.numEnvs

/-- The proposition that an environment is a (possibly trivially) wrapped
form of another. -/
inductive WrappedForm : VecEnv → VecEnv → Prop
  | refl (e : VecEnv) : WrappedForm e e
  | wrap (w e : VecEnv) : WrappedForm w e → WrappedForm (VecEnv.wrapped w) e

/-- A stable-baselines3 `BaseAlgorithm`: a policy bundled with an internal
environment reference.  `wrapsEnv` records whether this algorithm's
`set_env` decorates incoming environments with a preprocessing wrapper
(e.g. image transposition), as the source comments describe. -/
structure BaseAlgorithm where
  policy : Policy
  env : VecEnv
  wrapsEnv : Bool

/-- Modelled from the spec: `BaseAlgorithm.set_env` replaces the algorithm's
internal environment reference with the supplied environment, possibly
decorated with the algorithm's preprocessing wrappers ("its internal
environment reference is replaced with the supplied environment", "possibly
wrapper-augmented"). -/
def BaseAlgorithm.set_env (a : BaseAlgorithm) (venv : VecEnv) : BaseAlgorithm :=
  { a with env := if a.wrapsEnv then VecEnv.wrapped venv else venv }

/-- Modelled from the spec: `BaseAlgorithm.get_env` reports the algorithm's
current (possibly wrapper-augmented) internal environment reference. -/
def BaseAlgorithm.get_env (a : BaseAlgorithm) : VecEnv :=
  a.env

/-- The polymorphic first argument of `eval_policy`:
`Union[base_class.BaseAlgorithm, policies.BasePolicy]`. -/
def RlAlgo : Type := Sum BaseAlgorithm Policy

/-- The action-selection policy of either variant (a bare policy is its own
policy; an algorithm rolls out with the policy it carries). -/
def RlAlgo.getPolicy : RlAlgo → Policy
  | .inl a => a.policy
  | .inr p => p

/-- A stopping criterion over accumulated trajectories.
Modelled from the spec: "StoppingCriterion: a predicate over accumulated
trajectories, here instantiated as 'stop once at least N episodes have
completed.'" -/
structure SampleUntil where
  minEpisodes : Nat
deriving DecidableEq, Repr

/-- Whether the stopping criterion is satisfied by the accumulated
trajectories: at least `minEpisodes` episodes have completed. -/
def SampleUntil.satisfied (su : SampleUntil) (trajs : List Traj) : Bool :=
  decide (su.minEpisodes ≤ trajs.length)

/-- Modelled from the spec: `rollout.make_min_episodes` (code of this
repository outside the verified sources) builds the stopping criterion
"at least `n` episodes completed"; it is the collaborator that rejects a
non-positive target episode count ("fails if target_episode_count ≤ 0 ...
an error raised by a collaborator (e.g. the stopping-criterion
constructor)"). -/
def make_min_episodes (n : Int) : Except String SampleUntil :=
  if 1 ≤ n then .ok ⟨n.toNat⟩ else .error "make_min_episodes: n must be positive"

/-- The rollout loop: while the stopping criterion is not satisfied, step all
parallel environment instances simultaneously, appending the batch of episodes
they complete; episodes are indexed consecutively so generation is a
deterministic function of policy, environment and random source. -/
def genLoop (env : VecEnv) (pol : Policy) (rng : Nat) (su : SampleUntil)
    (acc : List Traj) : List Traj :=
  if su.satisfied acc then acc
  else
    genLoop env pol rng su
      (acc ++ (List.range env.numEnvs).map (fun i => env.core.rollEpisode pol rng (acc.length + i)))
termination_by su.minEpisodes - acc.length
decreasing_by
  simp only [SampleUntil.satisfied, decide_eq_true_eq, Nat.not_le] at *
  have hpos : 0 < env.numEnvs := env.core.numEnvs_pos
  simp only [List.length_append, List.length_map, List.length_range]
  omega

/-- Modelled from the spec: `rollout.generate_trajectories` (code of this
repository outside the verified sources) — "Trajectories are generated in a
loop, stepping all parallel environment instances simultaneously, collecting
completed episodes until the stopping criterion ... is satisfied.  Generation
is deterministic given a seeded random source." -/
def generate_trajectories (rl_algo : RlAlgo) (env : VecEnv)
    (sample_until : SampleUntil) (rng : Nat) : List Traj :=
  genLoop env rl_algo.getPolicy rng sample_until []

/-- A statistics block: a mapping from statistic names to numeric values. -/
def Stats : Type := List (String × Rat)

/-- Modelled from the spec: `rollout.rollout_stats` (code of this repository
outside the verified sources) — "an aggregation over a set of trajectories
producing, at minimum, mean and count of episode returns"; "empty trajectory
sets" are a failure propagated from this collaborator. -/
def rollout_stats (trajs : List Traj) : Except String Stats :=
  match trajs with
  | [] => .error "rollout_stats: empty trajectory set"
  | t :: ts =>
    let rets := (t :: ts).map Traj.ret
    .ok [("n_traj", ((t :: ts).length : Rat)),
         ("return_min", rets.foldl min t.ret),
         ("return_mean", rets.sum / ((t :: ts).length : Rat)),
         ("return_max", rets.foldl max t.ret)]

/-- Modelled from the spec: `common.make_rng` (code of this repository outside
the verified sources) draws the seeded random source from the shared
configuration scope at call time ("the random source is obtained from a shared
configuration scope (external collaborator) at call time"); it is a
deterministic function of the configuration seed. -/
def make_rng (seed : Nat) : Nat :=
  seed

/-- Embedding of `eval_policy` from `src/imitation/scripts/common/train.py`.
The configuration-injected `n_episodes_eval` and the configuration seed
feeding `common.make_rng` are explicit arguments; the Python in-place update
of `rl_algo` is returned as the second component of the result. -/
def eval_policy (rl_algo : RlAlgo) (venv : VecEnv) (n_episodes_eval : Int)
    (seed : Nat) : Except String Stats × RlAlgo :=
  let rng := make_rng seed
  match make_min_episodes n_episodes_eval with
  | .error e => (.error e, rl_algo)
  | .ok sample_until =>
    let st : RlAlgo × VecEnv :=
      match rl_algo with
      | .inl algo =>
        let algo2 := algo.set_env venv
        (Sum.inl algo2, algo2.get_env)
      | .inr p => (Sum.inr p, venv)
    let trajs := generate_trajectories st.1 st.2 sample_until rng
    (rollout_stats trajs, st.1)

/-- A Python configuration value as used in the policy-kwargs dictionaries of
the source: either a class object (identified by name) or a nested
dictionary. -/
inductive ConfigVal where
  | pyClass : String → ConfigVal
  | pyDict : List (String × ConfigVal) → ConfigVal

/-- A policy-kwargs dictionary: string keys with configuration values. -/
def PolicyKwargs : Type := List (String × ConfigVal)

/-- Embedding of `NORMALIZE_RUNNING_POLICY_KWARGS` from the source: the
policy kwargs selecting `NormalizeFeaturesExtractor` with a `RunningNorm`
normalization class. -/
def NORMALIZE_RUNNING_POLICY_KWARGS : PolicyKwargs :=
  [("features_extractor_class", .pyClass "NormalizeFeaturesExtractor"),
   ("features_extractor_kwargs", .pyDict [("normalize_class", .pyClass "RunningNorm")])]

/-- The slice of the `train` ingredient configuration that `config_hook`
reads: its `policy_kwargs` dictionary. -/
structure TrainConfig where
  policy_kwargs : PolicyKwargs

/-- The configuration mapping passed to the hook, with the `train` scope the
hook indexes into. -/
structure Config where
  train : TrainConfig

/-- Python key-membership test on a kwargs dictionary. -/
def PolicyKwargs.hasKey (d : PolicyKwargs) (k : String) : Bool :=
  d.any (fun kv => kv.fst = k)

/-- Embedding of `config_hook` from the source: sets defaults equivalent to
the `normalize_running` named configuration.  It returns the update
dictionary the configuration framework merges in: the normalize-running
policy kwargs when no `features_extractor_class` is pinned, the empty
mapping otherwise.  The hook is a pure reader of `config`; `command_name`
and `logger` are accepted and discarded as in the source. -/
def config_hook (config : Config) (command_name : String) (logger : Unit) :
    List (String × PolicyKwargs) :=
  if ¬ (config.train.policy_kwargs.hasKey "features_extractor_class") then
    [("policy_kwargs", NORMALIZE_RUNNING_POLICY_KWARGS)]
  else []

/- Concrete example objects used by the witness theorems: a one-instance
environment whose every episode lasts five steps with reward 1 per step
(the specification's trivial scenario environment). -/

/-- A step with reward 1 that ends the episode after itself when `d` holds. -/
def exStep (d : Bool) : Step :=
  { obs := 0, act := 0, rew := 1, done := d }

/-- A five-step episode with reward 1 per step (return 5). -/
def exTraj : Traj :=
  { steps := [exStep false, exStep false, exStep false, exStep false, exStep true] }

/-- A single-instance vectorized environment that always produces `exTraj`. -/
def exEnv : VecEnv :=
  .base { numEnvs := 1, numEnvs_pos := Nat.one_pos, rollEpisode := fun _ _ _ => exTraj }

/-- A second, distinguishable base environment (for prior-env comparisons). -/
def exEnv2 : VecEnv :=
  .base { numEnvs := 2, numEnvs_pos := Nat.zero_lt_two, rollEpisode := fun _ _ _ => exTraj }

/-- A trivial policy. -/
def exPolicy : Policy :=
  { act := fun _ => 0 }

/-- An example training algorithm whose `set_env` wraps incoming
environments, holding `exEnv2` as its prior environment. -/
def exAlgo : BaseAlgorithm :=
  { policy := exPolicy, env := exEnv2, wrapsEnv := true }

/-- The statistics block produced for one `exTraj` episode. -/
def exStats : Stats :=
  [("n_traj", 1), ("return_min", 5), ("return_mean", 5), ("return_max", 5)]

/-- A configuration whose policy kwargs do not pin a features-extractor
class (the default configuration). -/
def exConfigAbsent : Config :=
  { train := { policy_kwargs := [] } }

/-- A configuration whose policy kwargs pin a features-extractor class (as
the `normalize_disable` named configuration does). -/
def exConfigPinned : Config :=
  { train := { policy_kwargs := [("features_extractor_class", .pyClass "FlattenExtractor")] } }

/-- A vectorized environment steps at least one episode instance. -/
theorem VecEnv.numEnvs_pos (e : VecEnv) : 0 < e.numEnvs :=
  e.core.numEnvs_pos

/-- The rollout loop only stops once the stopping criterion holds: the
collected trajectory list contains at least `minEpisodes` episodes. -/
theorem genLoop_length (env : VecEnv) (pol : Policy) (rng : Nat)
    (su : SampleUntil) (acc : List Traj) :
    su.minEpisodes ≤ (genLoop env pol rng su acc).length := by
  induction acc using genLoop.induct env pol rng su with
  | case1 acc hsat =>
    rw [genLoop, if_pos hsat]
    simpa [SampleUntil.satisfied] using hsat
  | case2 acc hsat ih =>
    rw [genLoop, if_neg hsat]
    exact ih

/-- Trajectory generation driven by a minimum-episode criterion collects at
least that many episodes. -/
theorem generate_trajectories_length (rl_algo : RlAlgo) (env : VecEnv)
    (su : SampleUntil) (rng : Nat) :
    su.minEpisodes ≤ (generate_trajectories rl_algo env su rng).length :=
  genLoop_length env rl_algo.getPolicy rng su []

/-- On a nonempty trajectory list, the statistics aggregator succeeds and its
key set is fixed. -/
theorem rollout_stats_keys (trajs : List Traj) (h : trajs ≠ []) :
    ∃ s : Stats, rollout_stats trajs = .ok s ∧
      s.map Prod.fst = ["n_traj", "return_min", "return_mean", "return_max"] := by
  match trajs, h with
  | t :: ts, _ =>
    refine ⟨_, rfl, ?_⟩
    rfl

/-- On success, `make_min_episodes n` returns the criterion "at least `n`
episodes" (with `n` positive). -/
theorem make_min_episodes_ok (n : Int) (h : 1 ≤ n) :
    make_min_episodes n = .ok ⟨n.toNat⟩ := by
  simp [make_min_episodes, h]

/-- Characterization of the `BaseAlgorithm` branch of `eval_policy` when the
stopping-criterion constructor succeeds: the algorithm's environment is
replaced, rollout runs on the algorithm's reported environment, and the
updated algorithm is the post-state. -/
theorem eval_policy_inl (a : BaseAlgorithm) (venv : VecEnv) (n : Int)
    (seed : Nat) (h : 1 ≤ n) :
    eval_policy (Sum.inl a) venv n seed =
      (rollout_stats (generate_trajectories (Sum.inl (a.set_env venv))
          ((a.set_env venv).get_env) ⟨n.toNat⟩ (make_rng seed)),
       Sum.inl (a.set_env venv)) := by
  simp [eval_policy, make_min_episodes_ok n h]

/-- Characterization of the bare-policy branch of `eval_policy` when the
stopping-criterion constructor succeeds: rollout runs directly on the raw
environment and the policy is returned unchanged. -/
theorem eval_policy_inr (p : Policy) (venv : VecEnv) (n : Int)
    (seed : Nat) (h : 1 ≤ n) :
    eval_policy (Sum.inr p) venv n seed =
      (rollout_stats (generate_trajectories (Sum.inr p) venv ⟨n.toNat⟩ (make_rng seed)),
       Sum.inr p) := by
  simp [eval_policy, make_min_episodes_ok n h]

/-- For a positive episode target, `eval_policy` succeeds and its statistics
block carries the fixed key set. -/
theorem eval_policy_ok_keys (rl : RlAlgo) (venv : VecEnv) (n : Int)
    (seed : Nat) (h : 1 ≤ n) :
    ∃ s : Stats, (eval_policy rl venv n seed).fst = .ok s ∧
      s.map Prod.fst = ["n_traj", "return_min", "return_mean", "return_max"] := by
  have key : ∀ (rl2 : RlAlgo) (env : VecEnv),
      ∃ s : Stats,
        rollout_stats (generate_trajectories rl2 env ⟨n.toNat⟩ (make_rng seed)) = .ok s ∧
        s.map Prod.fst = ["n_traj", "return_min", "return_mean", "return_max"] := by
    intro rl2 env
    have hlen := generate_trajectories_length rl2 env ⟨n.toNat⟩ (make_rng seed)
    apply rollout_stats_keys
    intro hnil
    rw [hnil] at hlen
    simp only [List.length_nil, Nat.le_zero] at hlen
    omega
  cases rl with
  | inl a =>
    rw [eval_policy_inl a venv n seed h]
    exact key _ _
  | inr p =>
    rw [eval_policy_inr p venv n seed h]
    exact key _ _

/-- C1: the specification and the source docstring promise a mapping with two
statistics blocks ("imit_stats" from this call's rollouts and "expert_stats"
from a separately loaded expert trajectory set), but `eval_policy` returns the
single statistics block the aggregator computes on this call's rollouts: at a
concrete input the result is one flat block whose key set has no "imit_stats"
and no "expert_stats" entry (indeed the function takes no expert dataset input
at all), contradicting the claim. -/
theorem eval_policy_single_stats_block :
    (eval_policy (Sum.inr exPolicy) exEnv 1 0).fst = .ok exStats ∧
      "imit_stats" ∉ exStats.map Prod.fst ∧
      "expert_stats" ∉ exStats.map Prod.fst := by
  refine ⟨?_, by decide, by decide⟩
  simp +decide [eval_policy, make_min_episodes, make_rng, generate_trajectories, genLoop,
    SampleUntil.satisfied, RlAlgo.getPolicy, exEnv, VecEnv.numEnvs, VecEnv.core,
    rollout_stats, exStats, exTraj, exStep, Traj.ret, exPolicy]
  norm_num

/-- C2: on the training-algorithm branch, the algorithm's internal environment
reference is replaced before rollout: the post-state algorithm's environment
is a (possibly) wrapped form of the supplied environment, it does not depend
on the algorithm's prior environment, and the trajectories are generated on
the environment the algorithm subsequently reports, not on the raw input
environment. -/
theorem eval_policy_algo_env_replaced (a : BaseAlgorithm) (venv : VecEnv)
    (n : Int) (seed : Nat) (h : 1 ≤ n) :
    ∃ a2 : BaseAlgorithm,
      (eval_policy (Sum.inl a) venv n seed).snd = Sum.inl a2 ∧
      WrappedForm a2.env venv ∧
      (∀ e0 : VecEnv,
        (BaseAlgorithm.set_env { a with env := e0 } venv).env = a2.env) ∧
      (eval_policy (Sum.inl a) venv n seed).fst =
        rollout_stats (generate_trajectories (Sum.inl a2) a2.get_env
          ⟨n.toNat⟩ (make_rng seed)) := by
  refine ⟨a.set_env venv, ?_, ?_, ?_, ?_⟩
  · rw [eval_policy_inl a venv n seed h]
  · show WrappedForm (if a.wrapsEnv then VecEnv.wrapped venv else venv) venv
    by_cases hw : a.wrapsEnv = true
    · rw [if_pos hw]
      exact WrappedForm.wrap venv venv (WrappedForm.refl venv)
    · rw [if_neg hw]
      exact WrappedForm.refl venv
  · intro e0
    rfl
  · rw [eval_policy_inl a venv n seed h]

/-- C2 witness: instantiation at the example algorithm and environment. -/
theorem eval_policy_algo_env_replaced_witness :
    (1 : Int) ≤ 1 ∧
    ∃ a2 : BaseAlgorithm,
      (eval_policy (Sum.inl exAlgo) exEnv 1 0).snd = Sum.inl a2 ∧
      WrappedForm a2.env exEnv ∧
      (∀ e0 : VecEnv,
        (BaseAlgorithm.set_env { exAlgo with env := e0 } exEnv).env = a2.env) ∧
      (eval_policy (Sum.inl exAlgo) exEnv 1 0).fst =
        rollout_stats (generate_trajectories (Sum.inl a2) a2.get_env
          ⟨(1 : Int).toNat⟩ (make_rng 0)) :=
  ⟨by decide, eval_policy_algo_env_replaced exAlgo exEnv 1 0 (by decide)⟩

/-- C3: for a positive target episode count `n`, the trajectory set generated
by a call of `eval_policy` contains at least `n` completed episodes, as
reported by the "n_traj" statistic, which counts the generated trajectories. -/
theorem eval_policy_min_episode_count (rl : RlAlgo) (venv : VecEnv) (n : Int)
    (seed : Nat) (h : 1 ≤ n) :
    ∃ (k : Nat) (rest : Stats), n ≤ (k : Int) ∧
      (eval_policy rl venv n seed).fst = .ok (("n_traj", (k : Rat)) :: rest) := by
  have key : ∀ (rl2 : RlAlgo) (env : VecEnv),
      ∃ (k : Nat) (rest : Stats), n ≤ (k : Int) ∧
        rollout_stats (generate_trajectories rl2 env ⟨n.toNat⟩ (make_rng seed)) =
          .ok (("n_traj", (k : Rat)) :: rest) := by
    intro rl2 env
    have hlen := generate_trajectories_length rl2 env ⟨n.toNat⟩ (make_rng seed)
    cases htr : generate_trajectories rl2 env ⟨n.toNat⟩ (make_rng seed) with
    | nil =>
      rw [htr] at hlen
      simp only [List.length_nil, Nat.le_zero] at hlen
      omega
    | cons t ts =>
      rw [htr] at hlen
      have hlen2 : n.toNat ≤ (t :: ts).length := hlen
      refine ⟨(t :: ts).length,
        [("return_min", ((t :: ts).map Traj.ret).foldl min t.ret),
         ("return_mean", ((t :: ts).map Traj.ret).sum / ((t :: ts).length : Rat)),
         ("return_max", ((t :: ts).map Traj.ret).foldl max t.ret)], ?_, rfl⟩
      omega
  cases rl with
  | inl a =>
    rw [eval_policy_inl a venv n seed h]
    exact key _ _
  | inr p =>
    rw [eval_policy_inr p venv n seed h]
    exact key _ _

/-- C3 witness: instantiation at the example policy and environment with
target 1. -/
theorem eval_policy_min_episode_count_witness :
    (1 : Int) ≤ 1 ∧
    ∃ (k : Nat) (rest : Stats), 1 ≤ (k : Int) ∧
      (eval_policy (Sum.inr exPolicy) exEnv 1 0).fst =
        .ok (("n_traj", (k : Rat)) :: rest) :=
  ⟨by decide, eval_policy_min_episode_count (Sum.inr exPolicy) exEnv 1 0 (by decide)⟩

/-- C4: two calls of `eval_policy` with identical inputs that draw their
random source from the same configuration seed produce identical results
(statistics and post-state); determinism holds because all randomness enters
through the seed drawn from the shared configuration scope. -/
theorem eval_policy_two_run_deterministic (rl : RlAlgo) (venv : VecEnv)
    (n : Int) (seed1 seed2 : Nat) (h : seed1 = seed2) :
    eval_policy rl venv n seed1 = eval_policy rl venv n seed2 := by
  rw [h]

/-- C4 witness: two runs at the example inputs with the same seed agree. -/
theorem eval_policy_two_run_deterministic_witness :
    (0 : Nat) = 0 ∧
    eval_policy (Sum.inr exPolicy) exEnv 1 0 = eval_policy (Sum.inr exPolicy) exEnv 1 0 :=
  ⟨rfl, eval_policy_two_run_deterministic (Sum.inr exPolicy) exEnv 1 0 0 rfl⟩

/-- C5: for a non-positive target episode count, `eval_policy` does not
return a normal result: with no local guard of its own, it surfaces the error
raised by the stopping-criterion constructor, leaving its input unchanged. -/
theorem eval_policy_nonpositive_rejected (rl : RlAlgo) (venv : VecEnv)
    (n : Int) (seed : Nat) (h : n ≤ 0) :
    ∃ e : String, make_min_episodes n = .error e ∧
      eval_policy rl venv n seed = (.error e, rl) := by
  have hn : ¬ (1 ≤ n) := by omega
  refine ⟨"make_min_episodes: n must be positive", ?_, ?_⟩
  · simp [make_min_episodes, hn]
  · simp [eval_policy, make_min_episodes, hn]

/-- C5 witness: instantiation at target 0. -/
theorem eval_policy_nonpositive_rejected_witness :
    (0 : Int) ≤ 0 ∧
    ∃ e : String, make_min_episodes 0 = .error e ∧
      eval_policy (Sum.inr exPolicy) exEnv 0 0 = (.error e, Sum.inr exPolicy) :=
  ⟨by decide, eval_policy_nonpositive_rejected (Sum.inr exPolicy) exEnv 0 0 (by decide)⟩

/-- C6: on the bare-policy branch, the raw environment passed by the caller
is the one used directly for trajectory generation, and the policy is
returned unchanged. -/
theorem eval_policy_bare_policy_raw_env (p : Policy) (venv : VecEnv) (n : Int)
    (seed : Nat) (h : 1 ≤ n) :
    eval_policy (Sum.inr p) venv n seed =
      (rollout_stats (generate_trajectories (Sum.inr p) venv ⟨n.toNat⟩ (make_rng seed)),
       Sum.inr p) := by
  simp [eval_policy, make_min_episodes_ok n h]

/-- C6 witness: instantiation at the example policy and environment. -/
theorem eval_policy_bare_policy_raw_env_witness :
    (1 : Int) ≤ 1 ∧
    eval_policy (Sum.inr exPolicy) exEnv 1 0 =
      (rollout_stats (generate_trajectories (Sum.inr exPolicy) exEnv
        ⟨(1 : Int).toNat⟩ (make_rng 0)), Sum.inr exPolicy) :=
  ⟨by decide, eval_policy_bare_policy_raw_env exPolicy exEnv 1 0 (by decide)⟩

/-- C7: `eval_policy` performs no local error handling: an error raised by
the stopping-criterion constructor is returned to the caller unchanged, and
on the success path the result is exactly the statistics aggregator's output
on the generated trajectories, whatever that output is — there is no retry,
recovery or catching in between. -/
theorem eval_policy_propagates_collaborator_errors (rl : RlAlgo) (venv : VecEnv)
    (n : Int) (seed : Nat) :
    (∀ e : String, make_min_episodes n = .error e →
      (eval_policy rl venv n seed).fst = .error e) ∧
    (∀ su : SampleUntil, make_min_episodes n = .ok su →
      ∃ trajs : List Traj, (eval_policy rl venv n seed).fst = rollout_stats trajs) := by
  constructor
  · intro e he
    simp [eval_policy, he]
  · intro su hsu
    have h : 1 ≤ n := by
      by_contra hn
      simp [make_min_episodes, hn] at hsu
    rw [make_min_episodes_ok n h] at hsu
    injection hsu with hsu2
    subst hsu2
    cases rl with
    | inl a =>
      rw [eval_policy_inl a venv n seed h]
      exact ⟨_, rfl⟩
    | inr p =>
      rw [eval_policy_inr p venv n seed h]
      exact ⟨_, rfl⟩

/-- C7 witness: at target -1 the constructor's error surfaces unchanged. -/
theorem eval_policy_propagates_collaborator_errors_witness :
    make_min_episodes (-1) = .error "make_min_episodes: n must be positive" ∧
    (eval_policy (Sum.inr exPolicy) exEnv (-1) 0).fst =
      .error "make_min_episodes: n must be positive" := by
  have hme : make_min_episodes (-1) = .error "make_min_episodes: n must be positive" := by
    simp [make_min_episodes]
  exact ⟨hme,
    (eval_policy_propagates_collaborator_errors (Sum.inr exPolicy) exEnv (-1) 0).1 _ hme⟩

/-- C8: any two successful calls of `eval_policy` with positive target
episode counts return statistics blocks with exactly the same key list: the
result's key set does not depend on the target count (nor on any other
input). -/
theorem eval_policy_key_shape (rl1 rl2 : RlAlgo) (v1 v2 : VecEnv) (n1 n2 : Int)
    (s1 s2 : Nat) (h1 : 1 ≤ n1) (h2 : 1 ≤ n2) :
    ∃ st1 st2 : Stats,
      (eval_policy rl1 v1 n1 s1).fst = .ok st1 ∧
      (eval_policy rl2 v2 n2 s2).fst = .ok st2 ∧
      st1.map Prod.fst = st2.map Prod.fst := by
  obtain ⟨st1, he1, hk1⟩ := eval_policy_ok_keys rl1 v1 n1 s1 h1
  obtain ⟨st2, he2, hk2⟩ := eval_policy_ok_keys rl2 v2 n2 s2 h2
  exact ⟨st1, st2, he1, he2, by rw [hk1, hk2]⟩

/-- C8 witness: a bare-policy call with target 1 and an algorithm call with
target 2 return identically keyed statistics blocks. -/
theorem eval_policy_key_shape_witness :
    (1 : Int) ≤ 1 ∧ (1 : Int) ≤ 2 ∧
    ∃ st1 st2 : Stats,
      (eval_policy (Sum.inr exPolicy) exEnv 1 0).fst = .ok st1 ∧
      (eval_policy (Sum.inl exAlgo) exEnv 2 0).fst = .ok st2 ∧
      st1.map Prod.fst = st2.map Prod.fst :=
  ⟨by decide, by decide,
    eval_policy_key_shape (Sum.inr exPolicy) (Sum.inl exAlgo) exEnv exEnv 1 2 0 0
      (by decide) (by decide)⟩

/-- C9: on the bare-policy branch, `eval_policy` mutates nothing: its
post-state is exactly the policy passed in (success and failure alike); the
environment-replacement side effect exists only on the training-algorithm
branch, and the embedding threads no other mutable state because the source
touches none. -/
theorem eval_policy_bare_policy_frame (p : Policy) (venv : VecEnv) (n : Int)
    (seed : Nat) :
    (eval_policy (Sum.inr p) venv n seed).snd = Sum.inr p := by
  by_cases h : 1 ≤ n
  · rw [eval_policy_inr p venv n seed h]
  · simp [eval_policy, make_min_episodes, h]

/-- C10: the configuration hook returns the normalize-running policy kwargs
under the "policy_kwargs" key exactly when no "features_extractor_class" is
present in the configuration's train policy kwargs, and the empty mapping
exactly when one is present; it reads the configuration and never writes it. -/
theorem config_hook_normalize_default (config : Config) (cn : String) (lg : Unit) :
    (config_hook config cn lg = [("policy_kwargs", NORMALIZE_RUNNING_POLICY_KWARGS)] ↔
      config.train.policy_kwargs.hasKey "features_extractor_class" = false) ∧
    (config_hook config cn lg = [] ↔
      config.train.policy_kwargs.hasKey "features_extractor_class" = true) := by
  unfold config_hook
  by_cases hk : config.train.policy_kwargs.hasKey "features_extractor_class" = true
  · simp [hk]
  · simp [hk]

end ImitationTrain
